import Mathlib

/-!
Verification of the AgentBasis TypeScript SDK core: span lifecycle,
streaming aggregation, context propagation and client lifecycle.

The definitions below are shallow embeddings of the TypeScript source:
  - `Span` and its operations model the OpenTelemetry span handle as the
    specification describes it (end-guard boolean set exactly once);
  - `Transport.endLLMSpan`, `startLLMSpan` follow `core/transport.ts`;
  - `loadConfig` / `validateConfig` follow `core/config.ts`;
  - `AgentBasis.init` / `AgentBasis.shutdown` follow `core/client.ts`;
  - the streaming wrappers follow `llms/openai/index.ts` and the
    Anthropic instrumentation module.
JavaScript numbers that carry token counts or configuration bounds are
modelled as `Int`; JS objects with string keys are association lists.
-/

namespace AgentBasis

/-- Attribute values an OpenTelemetry span can carry (string / number / bool). -/
inductive AttrVal where
  | str (s : String)
  | num (n : Int)
  | bool (b : Bool)
deriving DecidableEq, Repr

/-- Span status, per `SpanStatusCode` (UNSET / OK / ERROR with message). -/
inductive SpanStatus where
  | unset
  | ok
  | error (msg : String)
deriving DecidableEq, Repr

/-- Replace-or-append a key in a string-keyed JS object / attribute map
(overwrite the existing property in place, else append). -/
def setEntry {β : Type} : List (String × β) → String → β → List (String × β)
  | [], k, v => [(k, v)]
  | (k', v') :: rest, k, v =>
    if k' == k then (k, v) :: rest else (k', v') :: setEntry rest k v

/-- Modelled from the spec: the OpenTelemetry span handle used by
`Transport` (the `@opentelemetry/api` `Span` is an external collaborator
not present in the repository sources).  Per the specification's data
model, a Span Handle holds a name, an attribute map, a status, and an
end-guard boolean that is set exactly once; once ended, the handle has
been handed off for export and its terminal attributes are immutable.
`exportCount` counts export handoffs so exactly-once can be stated. -/
structure Span where
  name : String
  attrs : List (String × AttrVal)
  status : SpanStatus
  exceptions : List String
  ended : Bool
  exportCount : Nat
deriving DecidableEq, Repr

/-- Modelled from the spec: `span.setAttribute` — ignored after the end-guard is set. -/
def Span.setAttribute (s : Span) (k : String) (v : AttrVal) : Span :=
  if s.ended then s else { s with attrs := setEntry s.attrs k v }

/-- Modelled from the spec: `span.setStatus` — ignored after the end-guard is set. -/
def Span.setStatus (s : Span) (st : SpanStatus) : Span :=
  if s.ended then s else { s with status := st }

/-- Modelled from the spec: `span.recordException` — ignored after the end-guard is set. -/
def Span.recordException (s : Span) (m : String) : Span :=
  if s.ended then s else { s with exceptions := s.exceptions ++ [m] }

/-- Modelled from the spec: `span.end()` — sets the end-guard exactly once and
hands the span off for export; a second call is a silent no-op. -/
def Span.endSpan (s : Span) : Span :=
  if s.ended then s else { s with ended := true, exportCount := s.exportCount + 1 }

/-- Full SDK configuration, from `types/index.ts` (`AgentBasisConfig`). -/
structure AgentBasisConfig where
  apiKey : String
  agentId : String
  includeContent : Bool
  includeBinaryContent : Bool
  batchSize : Int
  flushIntervalMs : Int
  maxRetries : Int
  debug : Bool
deriving DecidableEq, Repr

/-- Attribute-name constants from `core/transport.ts` (`LLM_ATTRIBUTES`). -/
def LLM_ATTRIBUTES_PROVIDER : String := "llm.provider"

def LLM_ATTRIBUTES_MODEL : String := "llm.model"

def LLM_ATTRIBUTES_INPUT_TOKENS : String := "llm.usage.input_tokens"

def LLM_ATTRIBUTES_OUTPUT_TOKENS : String := "llm.usage.output_tokens"

def LLM_ATTRIBUTES_TOTAL_TOKENS : String := "llm.usage.total_tokens"

def LLM_ATTRIBUTES_PROMPT : String := "llm.prompt"

def LLM_ATTRIBUTES_RESPONSE : String := "llm.response"

def LLM_ATTRIBUTES_STREAMED : String := "llm.streamed"

def LLM_ATTRIBUTES_AGENT_ID : String := "agentbasis.agent_id"

/-- Options accepted by `Transport.endLLMSpan` (`core/transport.ts`).
The payload type `α` stands for the TS `unknown` of `prompt` / `response`. -/
structure EndLLMSpanOptions (α : Type) where
  inputTokens : Option Int := none
  outputTokens : Option Int := none
  totalTokens : Option Int := none
  prompt : Option α := none
  response : Option α := none
  streamed : Option Bool := none
  error : Option String := none
deriving DecidableEq, Repr

/-- `Transport.startLLMSpan` from `core/transport.ts`: a fresh span with the
provider / model / agent-id attributes pre-set and the end-guard clear. -/
def startLLMSpan (config : AgentBasisConfig) (name provider model : String) : Span :=
  { name := name
    attrs := [(LLM_ATTRIBUTES_PROVIDER, .str provider),
              (LLM_ATTRIBUTES_MODEL, .str model),
              (LLM_ATTRIBUTES_AGENT_ID, .str config.agentId)]
    status := .unset
    exceptions := []
    ended := false
    exportCount := 0 }

/-- `Transport.endLLMSpan` from `core/transport.ts`: sets the token-count and
streamed attributes when provided, attaches serialized prompt/response only
when `config.includeContent` is true, sets error or ok status, and ends the
span.  `stringify` stands for `JSON.stringify`. -/
def endLLMSpan {α : Type} (config : AgentBasisConfig) (stringify : α → String)
    (span : Span) (options : EndLLMSpanOptions α) : Span :=
  let s1 := match options.inputTokens with
    | some n => span.setAttribute LLM_ATTRIBUTES_INPUT_TOKENS (.num n)
    | none => span
  let s2 := match options.outputTokens with
    | some n => s1.setAttribute LLM_ATTRIBUTES_OUTPUT_TOKENS (.num n)
    | none => s1
  let s3 := match options.totalTokens with
    | some n => s2.setAttribute LLM_ATTRIBUTES_TOTAL_TOKENS (.num n)
    | none => s2
  let s4 := match options.streamed with
    | some b => s3.setAttribute LLM_ATTRIBUTES_STREAMED (.bool b)
    | none => s3
  let s5 :=
    if config.includeContent then
      let sp := match options.prompt with
        | some p => s4.setAttribute LLM_ATTRIBUTES_PROMPT (.str (stringify p))
        | none => s4
      match options.response with
        | some r => sp.setAttribute LLM_ATTRIBUTES_RESPONSE (.str (stringify r))
        | none => sp
    else s4
  let s6 := match options.error with
    | some e => (s5.setStatus (.error e)).recordException e
    | none => s5.setStatus .ok
  s6.endSpan

/-! Basic facts about the span operations. -/

theorem setAttribute_of_ended {s : Span} (h : s.ended = true) (k : String) (v : AttrVal) :
    s.setAttribute k v = s := by
  simp [Span.setAttribute, h]

theorem setStatus_of_ended {s : Span} (h : s.ended = true) (st : SpanStatus) :
    s.setStatus st = s := by
  simp [Span.setStatus, h]

theorem recordException_of_ended {s : Span} (h : s.ended = true) (m : String) :
    s.recordException m = s := by
  simp [Span.recordException, h]

theorem endSpan_of_ended {s : Span} (h : s.ended = true) : s.endSpan = s := by
  simp [Span.endSpan, h]

theorem setAttribute_ended (s : Span) (k : String) (v : AttrVal) :
    (s.setAttribute k v).ended = s.ended := by
  simp only [Span.setAttribute]
  split <;> rfl

theorem setStatus_ended (s : Span) (st : SpanStatus) :
    (s.setStatus st).ended = s.ended := by
  simp only [Span.setStatus]
  split <;> rfl

theorem recordException_ended (s : Span) (m : String) :
    (s.recordException m).ended = s.ended := by
  simp only [Span.recordException]
  split <;> rfl

theorem endSpan_ended (s : Span) : s.endSpan.ended = true := by
  simp only [Span.endSpan]
  split
  · assumption
  · rfl

theorem setAttribute_exportCount (s : Span) (k : String) (v : AttrVal) :
    (s.setAttribute k v).exportCount = s.exportCount := by
  simp only [Span.setAttribute]
  split <;> rfl

theorem setStatus_exportCount (s : Span) (st : SpanStatus) :
    (s.setStatus st).exportCount = s.exportCount := by
  simp only [Span.setStatus]
  split <;> rfl

theorem recordException_exportCount (s : Span) (m : String) :
    (s.recordException m).exportCount = s.exportCount := by
  simp only [Span.recordException]
  split <;> rfl

theorem endSpan_exportCount_of_not_ended {s : Span} (h : s.ended = false) :
    s.endSpan.exportCount = s.exportCount + 1 := by
  simp [Span.endSpan, h]

/-- A call to `endLLMSpan` on an already-ended span handle changes nothing. -/
theorem endLLMSpan_of_ended {α : Type} (config : AgentBasisConfig) (stringify : α → String)
    {s : Span} (h : s.ended = true) (o : EndLLMSpanOptions α) :
    endLLMSpan config stringify s o = s := by
  rcases o with ⟨i, ou, t, p, r, st, e⟩
  simp only [endLLMSpan]
  cases i <;> cases ou <;> cases t <;> cases st <;> cases e <;>
    cases hic : config.includeContent <;> cases p <;> cases r <;>
    simp_all [setAttribute_of_ended, setStatus_of_ended, recordException_of_ended,
      endSpan_of_ended, setAttribute_ended]

/-- `endLLMSpan` always leaves the end-guard set. -/
theorem endLLMSpan_ended {α : Type} (config : AgentBasisConfig) (stringify : α → String)
    (s : Span) (o : EndLLMSpanOptions α) :
    (endLLMSpan config stringify s o).ended = true := by
  rcases o with ⟨i, ou, t, p, r, st, e⟩
  simp only [endLLMSpan]
  cases e <;> simp [endSpan_ended]

/-- The first `endLLMSpan` on a live span performs exactly one export handoff. -/
theorem endLLMSpan_exportCount {α : Type} (config : AgentBasisConfig) (stringify : α → String)
    {s : Span} (h : s.ended = false) (o : EndLLMSpanOptions α) :
    (endLLMSpan config stringify s o).exportCount = s.exportCount + 1 := by
  rcases o with ⟨i, ou, t, p, r, st, e⟩
  simp only [endLLMSpan]
  cases i <;> cases ou <;> cases t <;> cases st <;> cases e <;>
    cases hic : config.includeContent <;> cases p <;> cases r <;>
    simp_all [Span.setAttribute, Span.setStatus, Span.recordException, Span.endSpan]

theorem lookup_setEntry_self {β : Type} (l : List (String × β)) (k : String) (v : β) :
    (setEntry l k v).lookup k = some v := by
  induction l with
  | nil => simp [setEntry, List.lookup]
  | cons hd tl ih =>
    rcases hd with ⟨k', v'⟩
    by_cases h : k' = k
    · subst h
      simp [setEntry, List.lookup]
    · have hb : (k' == k) = false := by simpa using h
      have hb' : (k == k') = false := by simpa using Ne.symm h
      simp [setEntry, List.lookup, hb, hb', ih]

theorem lookup_setEntry_ne {β : Type} (l : List (String × β)) {k k' : String}
    (h : k ≠ k') (v : β) :
    (setEntry l k' v).lookup k = l.lookup k := by
  induction l with
  | nil =>
    simp [setEntry, List.lookup, show (k == k') = false by simpa using h]
  | cons hd tl ih =>
    rcases hd with ⟨k0, v0⟩
    by_cases h0 : k0 = k'
    · subst h0
      simp [setEntry, List.lookup, show (k == k0) = false by simpa using h]
    · simp [setEntry, List.lookup, show (k0 == k') = false by simpa using h0, ih]

theorem setStatus_attrs (s : Span) (st : SpanStatus) : (s.setStatus st).attrs = s.attrs := by
  simp only [Span.setStatus]
  split <;> rfl

theorem recordException_attrs (s : Span) (m : String) :
    (s.recordException m).attrs = s.attrs := by
  simp only [Span.recordException]
  split <;> rfl

theorem endSpan_attrs (s : Span) : s.endSpan.attrs = s.attrs := by
  simp only [Span.endSpan]
  split <;> rfl

theorem setAttribute_attrs_of_not_ended {s : Span} (h : s.ended = false)
    (k : String) (v : AttrVal) :
    (s.setAttribute k v).attrs = setEntry s.attrs k v := by
  simp [Span.setAttribute, h]

/-- A concrete configuration used to instantiate theorems with hypotheses. -/
def sampleConfig : AgentBasisConfig :=
  { apiKey := "k"
    agentId := "agent-1"
    includeContent := true
    includeBinaryContent := false
    batchSize := 100
    flushIntervalMs := 5000
    maxRetries := 3
    debug := false }

/-- C2: a second call to `endLLMSpan` on an already-ended handle is a silent
no-op — the first call on a live handle sets the end-guard and performs exactly
one export handoff, and any further call (with any options and any
configuration) leaves the handle, its terminal attributes and its status
completely unchanged; `endLLMSpan` is a total function, so it never throws. -/
theorem endLLMSpan_double_finalize_suppressed {α β : Type}
    (config config' : AgentBasisConfig) (stringify : α → String) (stringify' : β → String)
    (s : Span) (o : EndLLMSpanOptions α) (o' : EndLLMSpanOptions β)
    (h : s.ended = false) :
    (endLLMSpan config stringify s o).ended = true ∧
    (endLLMSpan config stringify s o).exportCount = s.exportCount + 1 ∧
    endLLMSpan config' stringify' (endLLMSpan config stringify s o) o' =
      endLLMSpan config stringify s o := by
  refine ⟨endLLMSpan_ended config stringify s o, endLLMSpan_exportCount config stringify h o, ?_⟩
  exact endLLMSpan_of_ended config' stringify' (endLLMSpan_ended config stringify s o) o'

/-- Witness for C2 at a concrete live span and concrete options. -/
theorem endLLMSpan_double_finalize_suppressed_witness :
    (startLLMSpan sampleConfig "openai.chat.completions.create" "openai" "gpt-4o").ended
        = false ∧
    ((endLLMSpan sampleConfig (fun s : String => s)
        (startLLMSpan sampleConfig "openai.chat.completions.create" "openai" "gpt-4o")
        { inputTokens := some 3 }).ended = true ∧
      (endLLMSpan sampleConfig (fun s : String => s)
        (startLLMSpan sampleConfig "openai.chat.completions.create" "openai" "gpt-4o")
        { inputTokens := some 3 }).exportCount =
        (startLLMSpan sampleConfig "openai.chat.completions.create" "openai" "gpt-4o").exportCount
          + 1 ∧
      endLLMSpan sampleConfig (fun s : String => s)
        (endLLMSpan sampleConfig (fun s : String => s)
          (startLLMSpan sampleConfig "openai.chat.completions.create" "openai" "gpt-4o")
          { inputTokens := some 3 })
        { error := some "late error" } =
        endLLMSpan sampleConfig (fun s : String => s)
          (startLLMSpan sampleConfig "openai.chat.completions.create" "openai" "gpt-4o")
          { inputTokens := some 3 }) :=
  ⟨rfl, endLLMSpan_double_finalize_suppressed sampleConfig sampleConfig
    (fun s : String => s) (fun s : String => s)
    (startLLMSpan sampleConfig "openai.chat.completions.create" "openai" "gpt-4o")
    { inputTokens := some 3 } { error := some "late error" } rfl⟩

/-- C7 counterexample: with `includeContent = true` and
`includeBinaryContent = false`, ending an LLM span with a (binary) payload
still attaches the serialized payload as a content attribute —
`Transport.endLLMSpan` never consults `includeBinaryContent`, so the claim
that binary payloads are attached only if `includeBinaryContent` is
additionally true is false. -/
theorem endLLMSpan_binary_content_counterexample :
    sampleConfig.includeContent = true ∧
    sampleConfig.includeBinaryContent = false ∧
    ((endLLMSpan sampleConfig (fun s : String => s)
        (startLLMSpan sampleConfig "openai.chat.completions.create" "openai" "gpt-4o")
        { response := some "binary-image-bytes" }).attrs.lookup LLM_ATTRIBUTES_RESPONSE)
      = some (.str "binary-image-bytes") := by
  refine ⟨rfl, rfl, ?_⟩
  rfl

/-- C7 (amended): ending an LLM span attaches the prompt/response payloads,
serialized and unmodified, exactly when the active configuration's
`includeContent` flag is true; the `includeBinaryContent` flag is never
consulted — the behaviour of `endLLMSpan` is identical for either value of
that flag. -/
theorem endLLMSpan_content_policy {α : Type} (config : AgentBasisConfig)
    (stringify : α → String) (name provider model : String) (o : EndLLMSpanOptions α) :
    (∀ b : Bool,
      endLLMSpan { config with includeBinaryContent := b } stringify
          (startLLMSpan { config with includeBinaryContent := b } name provider model) o =
        endLLMSpan config stringify (startLLMSpan config name provider model) o) ∧
    (config.includeContent = false →
      ((endLLMSpan config stringify (startLLMSpan config name provider model) o).attrs.lookup
          LLM_ATTRIBUTES_PROMPT = none ∧
        (endLLMSpan config stringify (startLLMSpan config name provider model) o).attrs.lookup
          LLM_ATTRIBUTES_RESPONSE = none)) ∧
    (config.includeContent = true →
      (∀ p, o.prompt = some p →
        (endLLMSpan config stringify (startLLMSpan config name provider model) o).attrs.lookup
          LLM_ATTRIBUTES_PROMPT = some (.str (stringify p))) ∧
      (∀ r, o.response = some r →
        (endLLMSpan config stringify (startLLMSpan config name provider model) o).attrs.lookup
          LLM_ATTRIBUTES_RESPONSE = some (.str (stringify r)))) := by
  refine ⟨fun b => rfl, ?_, ?_⟩
  · intro h
    rcases o with ⟨i, ou, t, p, r, st, e⟩
    simp only [endLLMSpan, startLLMSpan, h]
    cases i <;> cases ou <;> cases t <;> cases st <;> cases e <;>
      simp +decide [Span.setAttribute, Span.setStatus, Span.recordException, Span.endSpan,
        setEntry, List.lookup, LLM_ATTRIBUTES_PROVIDER, LLM_ATTRIBUTES_MODEL,
        LLM_ATTRIBUTES_AGENT_ID, LLM_ATTRIBUTES_INPUT_TOKENS, LLM_ATTRIBUTES_OUTPUT_TOKENS,
        LLM_ATTRIBUTES_TOTAL_TOKENS, LLM_ATTRIBUTES_PROMPT, LLM_ATTRIBUTES_RESPONSE,
        LLM_ATTRIBUTES_STREAMED]
  · intro h
    rcases o with ⟨i, ou, t, p, r, st, e⟩
    constructor
    · rintro pv rfl
      simp only [endLLMSpan, startLLMSpan, h]
      cases i <;> cases ou <;> cases t <;> cases st <;> cases e <;> cases r <;>
        simp +decide [Span.setAttribute, Span.setStatus, Span.recordException, Span.endSpan,
          setEntry, List.lookup, LLM_ATTRIBUTES_PROVIDER, LLM_ATTRIBUTES_MODEL,
          LLM_ATTRIBUTES_AGENT_ID, LLM_ATTRIBUTES_INPUT_TOKENS, LLM_ATTRIBUTES_OUTPUT_TOKENS,
          LLM_ATTRIBUTES_TOTAL_TOKENS, LLM_ATTRIBUTES_PROMPT, LLM_ATTRIBUTES_RESPONSE,
          LLM_ATTRIBUTES_STREAMED]
    · rintro rv rfl
      simp only [endLLMSpan, startLLMSpan, h]
      cases i <;> cases ou <;> cases t <;> cases st <;> cases e <;> cases p <;>
        simp +decide [Span.setAttribute, Span.setStatus, Span.recordException, Span.endSpan,
          setEntry, List.lookup, LLM_ATTRIBUTES_PROVIDER, LLM_ATTRIBUTES_MODEL,
          LLM_ATTRIBUTES_AGENT_ID, LLM_ATTRIBUTES_INPUT_TOKENS, LLM_ATTRIBUTES_OUTPUT_TOKENS,
          LLM_ATTRIBUTES_TOTAL_TOKENS, LLM_ATTRIBUTES_PROMPT, LLM_ATTRIBUTES_RESPONSE,
          LLM_ATTRIBUTES_STREAMED]

/-- Witness for C7 (amended) at a concrete configuration and options. -/
theorem endLLMSpan_content_policy_witness :
    sampleConfig.includeContent = true ∧
    (∀ p : String, ({ prompt := some "hello", response := none } :
        EndLLMSpanOptions String).prompt = some p →
      (endLLMSpan sampleConfig (fun s : String => s)
        (startLLMSpan sampleConfig "span" "openai" "gpt-4o")
        { prompt := some "hello", response := none }).attrs.lookup
          LLM_ATTRIBUTES_PROMPT = some (.str p)) := by
  have h := endLLMSpan_content_policy (α := String) sampleConfig (fun s : String => s)
    "span" "openai" "gpt-4o" { prompt := some "hello", response := none }
  exact ⟨rfl, fun p hp => (h.2.2 rfl).1 p hp⟩

/-! ## Configuration loading and validation (`core/config.ts`) -/

/-- `InitConfig` from `types/index.ts`: every field optional. -/
structure InitConfig where
  apiKey : Option String := none
  agentId : Option String := none
  includeContent : Option Bool := none
  includeBinaryContent : Option Bool := none
  batchSize : Option Int := none
  flushIntervalMs : Option Int := none
  maxRetries : Option Int := none
  debug : Option Bool := none
deriving DecidableEq, Repr

/-- The record returned by `getAgentBasisEnvVars` in `utils/env.ts`: the key
and id may be absent, while `debug` / `includeContent` are parsed with a
`false` default and are therefore always present. -/
structure EnvVars where
  apiKey : Option String := none
  agentId : Option String := none
  baseUrl : Option String := none
  debug : Bool := false
  includeContent : Bool := false
deriving DecidableEq, Repr

def ENV_VARS_API_KEY : String := "AGENTBASIS_API_KEY"

def ENV_VARS_AGENT_ID : String := "AGENTBASIS_AGENT_ID"

/-- `DEFAULT_CONFIG` from `core/config.ts`. -/
structure DefaultConfig where
  includeContent : Bool
  includeBinaryContent : Bool
  batchSize : Int
  flushIntervalMs : Int
  maxRetries : Int
  debug : Bool
deriving DecidableEq, Repr

def DEFAULT_CONFIG : DefaultConfig :=
  { includeContent := false
    includeBinaryContent := false
    batchSize := 100
    flushIntervalMs := 5000
    maxRetries := 3
    debug := false }

/-- JS nullish coalescing `a ?? b` on possibly-absent values. -/
def nullish {α : Type} : Option α → Option α → Option α
  | some a, _ => some a
  | none, b => b

/-- JS truthiness test `!s` for a possibly-absent string:
`undefined` and the empty string are falsy. -/
def falsyStr : Option String → Bool
  | none => true
  | some s => s.isEmpty

/-- `validateConfig` from `core/config.ts`: throws (here: returns `.error`)
on the first violated constraint, in source order. -/
def validateConfig (config : AgentBasisConfig) : Except String Unit :=
  if config.apiKey.length = 0 then
    .error "Invalid API key: must be a non-empty string"
  else if config.agentId.length = 0 then
    .error "Invalid Agent ID: must be a non-empty string"
  else if config.batchSize < 1 then
    .error "batchSize must be at least 1"
  else if config.flushIntervalMs < 100 then
    .error "flushIntervalMs must be at least 100ms"
  else if config.maxRetries < 0 then
    .error "maxRetries must be 0 or greater"
  else
    .ok ()

/-- `loadConfig` from `core/config.ts`: explicit config wins over env vars
over defaults; missing credentials throw before assembly; the assembled
config is validated before being returned. -/
def loadConfig (initConfig : InitConfig) (envVars : EnvVars) :
    Except String AgentBasisConfig :=
  let apiKey := nullish initConfig.apiKey envVars.apiKey
  let agentId := nullish initConfig.agentId envVars.agentId
  if falsyStr apiKey then
    .error ("AgentBasis API key is required. Set " ++ ENV_VARS_API_KEY ++
      " env var or pass apiKey in config.")
  else if falsyStr agentId then
    .error ("AgentBasis Agent ID is required. Set " ++ ENV_VARS_AGENT_ID ++
      " env var or pass agentId in config.")
  else
    let config : AgentBasisConfig :=
      { apiKey := apiKey.getD ""
        agentId := agentId.getD ""
        includeContent := initConfig.includeContent.getD envVars.includeContent
        includeBinaryContent :=
          initConfig.includeBinaryContent.getD DEFAULT_CONFIG.includeBinaryContent
        batchSize := initConfig.batchSize.getD DEFAULT_CONFIG.batchSize
        flushIntervalMs := initConfig.flushIntervalMs.getD DEFAULT_CONFIG.flushIntervalMs
        maxRetries := initConfig.maxRetries.getD DEFAULT_CONFIG.maxRetries
        debug := initConfig.debug.getD envVars.debug }
    match validateConfig config with
    | .error e => .error e
    | .ok _ => .ok config

/-! ## Client lifecycle (`core/client.ts`) -/

/-- One constructed `AgentBasis` instance.  `id` models JS reference
identity (a fresh construction gets a fresh id); `config` is the immutable
configuration snapshot the instance was built with. -/
structure Instance where
  id : Nat
  config : AgentBasisConfig
deriving DecidableEq, Repr

/-- The static state of the `AgentBasis` class relevant to `init`:
the singleton field and a counter supplying fresh instance identities. -/
structure ClientState where
  inst : Option Instance
  nextId : Nat
deriving DecidableEq, Repr

/-- The observable outcome of one `AgentBasis.init` call. -/
structure InitOutcome where
  result : Except String Instance
  state : ClientState
  warnedAlreadyInitialized : Bool
deriving Repr

/-- `AgentBasis.init` from `core/client.ts`: if an instance exists, warn and
return it unchanged; otherwise resolve and validate the configuration
(propagating its error, constructing nothing on failure) and construct the
singleton. -/
def init (st : ClientState) (config : InitConfig) (env : EnvVars) : InitOutcome :=
  match st.inst with
  | some i => { result := .ok i, state := st, warnedAlreadyInitialized := true }
  | none =>
    match loadConfig config env with
    | .error e => { result := .error e, state := st, warnedAlreadyInitialized := false }
    | .ok rc =>
      let i : Instance := { id := st.nextId, config := rc }
      { result := .ok i
        state := { inst := some i, nextId := st.nextId + 1 }
        warnedAlreadyInitialized := false }

/-- `AgentBasis.getConfig` from `core/client.ts`. -/
def getConfig (st : ClientState) : Option AgentBasisConfig :=
  st.inst.map (fun i => i.config)

/-- A sequence of `init` calls with no intervening shutdown, returning every
call's outcome and the final static state. -/
def initMany (st : ClientState) (cfgs : List InitConfig) (env : EnvVars) :
    List InitOutcome × ClientState :=
  match cfgs with
  | [] => ([], st)
  | c :: rest =>
    let o := init st c env
    let (os, st') := initMany o.state rest env
    (o :: os, st')

theorem init_of_inst_some {st : ClientState} {i : Instance} (h : st.inst = some i)
    (c : InitConfig) (env : EnvVars) :
    init st c env = { result := .ok i, state := st, warnedAlreadyInitialized := true } := by
  simp [init, h]

theorem initMany_of_inst_some {st : ClientState} {i : Instance} (h : st.inst = some i)
    (cfgs : List InitConfig) (env : EnvVars) :
    (initMany st cfgs env).2 = st ∧
    ∀ o ∈ (initMany st cfgs env).1,
      o = { result := .ok i, state := st, warnedAlreadyInitialized := true } := by
  induction cfgs with
  | nil => simp [initMany]
  | cons c rest ih =>
    refine ⟨?_, ?_⟩
    · simp [initMany, init_of_inst_some h, ih.1]
    · intro o ho
      simp only [initMany, init_of_inst_some h, List.mem_cons] at ho
      rcases ho with ho | ho
      · exact ho
      · exact ih.2 o ho

/-- C8: `init` validates the resolved configuration and fails on the first
violated constraint before constructing anything: in particular
`init {apiKey := "k", agentId := "a", batchSize := 0}` returns the
configuration error `"batchSize must be at least 1"` (which references
`batchSize`) and leaves the client state untouched — no instance, transport
or span is created; and `validateConfig` accepts a configuration exactly
when the credentials are non-empty and `batchSize ≥ 1`,
`flushIntervalMs ≥ 100`, `maxRetries ≥ 0`. -/
theorem init_validates_config (env : EnvVars) (st : ClientState) (h : st.inst = none) :
    (init st { apiKey := some "k", agentId := some "a", batchSize := some 0 } env).result
        = .error "batchSize must be at least 1" ∧
    (init st { apiKey := some "k", agentId := some "a", batchSize := some 0 } env).state
        = st ∧
    (∃ pre post, "batchSize must be at least 1" = pre ++ "batchSize" ++ post) ∧
    (∀ c : AgentBasisConfig, validateConfig c = .ok () ↔
      (c.apiKey.length ≠ 0 ∧ c.agentId.length ≠ 0 ∧ 1 ≤ c.batchSize ∧
        100 ≤ c.flushIntervalMs ∧ 0 ≤ c.maxRetries)) := by
  refine ⟨?_, ?_, ⟨"", " must be at least 1", rfl⟩, ?_⟩
  · simp +decide [init, h, loadConfig, nullish, falsyStr, validateConfig]
  · simp +decide [init, h, loadConfig, nullish, falsyStr, validateConfig]
  · intro c
    unfold validateConfig
    split_ifs with h1 h2 h3 h4 h5 <;> simp_all

/-- Witness for C8 at the concrete empty client state and empty environment. -/
theorem init_validates_config_witness :
    (init { inst := none, nextId := 0 }
        { apiKey := some "k", agentId := some "a", batchSize := some 0 } {}).result
      = .error "batchSize must be at least 1" ∧
    (init { inst := none, nextId := 0 }
        { apiKey := some "k", agentId := some "a", batchSize := some 0 } {}).state
      = { inst := none, nextId := 0 } :=
  ⟨(init_validates_config {} { inst := none, nextId := 0 } rfl).1,
    (init_validates_config {} { inst := none, nextId := 0 } rfl).2.1⟩

/-- C4: with no intervening shutdown, the first `init` call constructs the
singleton from the resolved configuration, and every later call — whatever
configuration it passes — returns that same first instance unchanged with a
non-fatal warning and never an error; the effective configuration stays the
one resolved on the first call. -/
theorem init_first_caller_wins (st0 : ClientState) (c0 : InitConfig) (env : EnvVars)
    (rc : AgentBasisConfig) (cfgs : List InitConfig)
    (h0 : st0.inst = none) (hc : loadConfig c0 env = .ok rc) :
    (init st0 c0 env).result = .ok { id := st0.nextId, config := rc } ∧
    (init st0 c0 env).state.inst = some { id := st0.nextId, config := rc } ∧
    (∀ o ∈ (initMany (init st0 c0 env).state cfgs env).1,
      o.result = .ok { id := st0.nextId, config := rc } ∧
        o.warnedAlreadyInitialized = true ∧
        o.state.inst = some { id := st0.nextId, config := rc }) ∧
    (initMany (init st0 c0 env).state cfgs env).2.inst
        = some { id := st0.nextId, config := rc } ∧
    getConfig (initMany (init st0 c0 env).state cfgs env).2 = some rc := by
  have hstate : (init st0 c0 env).state
      = { inst := some { id := st0.nextId, config := rc }, nextId := st0.nextId + 1 } := by
    simp [init, h0, hc]
  have hinst : (init st0 c0 env).state.inst = some { id := st0.nextId, config := rc } := by
    rw [hstate]
  have hmany := initMany_of_inst_some hinst cfgs env
  refine ⟨by simp [init, h0, hc], hinst, ?_, ?_, ?_⟩
  · intro o ho
    have := hmany.2 o ho
    subst this
    exact ⟨rfl, rfl, hinst⟩
  · rw [hmany.1]
    exact hinst
  · rw [hmany.1, getConfig, hinst]
    rfl

/-- The configuration `loadConfig` resolves for explicit credentials
`apiKey = "k"`, `agentId = "a"` over an empty environment. -/
def sampleResolvedConfig : AgentBasisConfig :=
  { apiKey := "k"
    agentId := "a"
    includeContent := false
    includeBinaryContent := false
    batchSize := 100
    flushIntervalMs := 5000
    maxRetries := 3
    debug := false }

/-- Witness for C4: a concrete first call followed by a second call passing a
different (even invalid) configuration still yields the first instance. -/
theorem init_first_caller_wins_witness :
    (init { inst := none, nextId := 0 } { apiKey := some "k", agentId := some "a" } {}).result
      = .ok { id := 0, config := sampleResolvedConfig } ∧
    (∀ o ∈ (initMany
        (init { inst := none, nextId := 0 }
          { apiKey := some "k", agentId := some "a" } {}).state
        [{ apiKey := some "other", agentId := some "b", batchSize := some 0 }] {}).1,
      o.result = .ok { id := 0, config := sampleResolvedConfig } ∧
        o.warnedAlreadyInitialized = true ∧
        o.state.inst = some { id := 0, config := sampleResolvedConfig }) ∧
    getConfig (initMany
        (init { inst := none, nextId := 0 }
          { apiKey := some "k", agentId := some "a" } {}).state
        [{ apiKey := some "other", agentId := some "b", batchSize := some 0 }] {}).2
      = some sampleResolvedConfig := by
  have h := init_first_caller_wins { inst := none, nextId := 0 }
    { apiKey := some "k", agentId := some "a" } {} sampleResolvedConfig
    [{ apiKey := some "other", agentId := some "b", batchSize := some 0 }] rfl rfl
  exact ⟨h.1, h.2.2.1, h.2.2.2.2⟩

/-! ## Context propagation (`withContext` / `getCurrentContext`, `core/client.ts`)

The ambient OpenTelemetry context is modelled reader-style: a computation
receives the active `Context`, and `context.with(newContext, fn)` runs `fn`
with the new context, automatically restoring the previous one afterwards.
A `TraceContext` value is a runtime JS object: a string-keyed map. -/

/-- A runtime JS value as it can appear in a `TraceContext` object. -/
inductive JsVal where
  | vstr (s : String)
  | vnum (n : Int)
  | vbool (b : Bool)
  | vobj (fields : List (String × JsVal))

/-- JS truthiness of a `JsVal`. -/
def JsVal.truthy : JsVal → Bool
  | .vstr s => !s.isEmpty
  | .vnum n => n != 0
  | .vbool b => b
  | .vobj _ => true

/-- A `TraceContext` object at runtime: string keys to values
(the typed fields `userId` / `sessionId` / `traceId` / `metadata` are just
keys of this map, and object spread merges any keys present). -/
abbrev TraceCtx : Type := List (String × JsVal)

/-- JS object spread `{...parent, ...child}`: start from the parent's entries
and overwrite/append each child entry, so child keys win on conflict. -/
def spreadMerge (parent child : TraceCtx) : TraceCtx :=
  child.foldl (fun acc kv => setEntry acc kv.1 kv.2) parent

/-- The slice of the OpenTelemetry `Context` these claims read: the value
stored under the `agentbasis.context` key (`createContextWithMetadata` /
`getMetadataFromContext`).  The active-span slot set alongside it is only
consumed for span parenting and is not read by `withContext` or
`getCurrentContext`. -/
structure Context where
  agentbasisContext : Option TraceCtx

/-- The observable outcome of one `withContext` call: the value (or
propagated exception) of `fn`, and the scoping spans created and ended by
the call itself. -/
structure WithContextOutcome (α : Type) where
  result : Except String α
  spans : List Span

/-- Primitive `JsVal`s become span attributes; objects are not valid
OpenTelemetry attribute values and are dropped by the API. -/
def attrValOf : JsVal → Option AttrVal
  | .vstr s => some (.str s)
  | .vnum n => some (.num n)
  | .vbool b => some (.bool b)
  | .vobj _ => none

/-- Conditionally set a well-known-key attribute (`if (merged.userId) ...`). -/
def setIfTruthy (sp : Span) (attrKey : String) : Option JsVal → Span
  | some v => if v.truthy then
      match attrValOf v with
      | some a => sp.setAttribute attrKey a
      | none => sp
    else sp
  | none => sp

/-- The `agentbasis.metadata.*` loop of `withContext`: each primitive entry
of the `metadata` sub-object becomes an attribute. -/
def setMetadataAttrs (sp : Span) : Option JsVal → Span
  | some (.vobj fields) =>
    fields.foldl (fun acc kv =>
      match attrValOf kv.2 with
      | some a => acc.setAttribute ("agentbasis.metadata." ++ kv.1) a
      | none => acc) sp
  | _ => sp

/-- `withContext` from `core/client.ts`: when the SDK is not initialized,
invoke `fn` directly under the unchanged ambient context and create no span;
otherwise merge the ambient metadata with `traceContext` (child keys win),
open a scoping span tagged from the merged metadata, run `fn` under the new
context, mark the span ok (or error plus recorded exception, rethrowing
unchanged), and always end the span when the scope exits. -/
def withContext {α : Type} (initialized : Bool) (traceContext : TraceCtx)
    (fn : Context → Except String α) (parentContext : Context) :
    WithContextOutcome α :=
  if !initialized then
    { result := fn parentContext, spans := [] }
  else
    let existingMetadata := parentContext.agentbasisContext
    let mergedMetadata : TraceCtx := spreadMerge (existingMetadata.getD []) traceContext
    let spanName := match traceContext.lookup "traceId" with
      | some (.vstr s) => s
      | _ => "context"
    let span : Span :=
      { name := spanName, attrs := [], status := .unset, exceptions := []
        ended := false, exportCount := 0 }
    let span := setIfTruthy span "user.id" (mergedMetadata.lookup "userId")
    let span := setIfTruthy span "session.id" (mergedMetadata.lookup "sessionId")
    let span := setIfTruthy span "agentbasis.trace_id" (mergedMetadata.lookup "traceId")
    let span := setMetadataAttrs span (mergedMetadata.lookup "metadata")
    let newContext : Context := { agentbasisContext := some mergedMetadata }
    match fn newContext with
    | .ok v =>
      { result := .ok v, spans := [(span.setStatus .ok).endSpan] }
    | .error e =>
      { result := .error e
        spans := [((span.setStatus (.error e)).recordException e).endSpan] }

/-- `getCurrentContext` from `core/client.ts`: the ambient metadata at the
call site, or none outside any scope. -/
def getCurrentContext (ctx : Context) : Option TraceCtx :=
  ctx.agentbasisContext

/-- The nested example of the specification:
`withContext({a:1}, () => withContext({b:2}, () => getCurrentContext()))`,
also observing `getCurrentContext()` in the outer scope after the inner
scope has exited. -/
def nestedRun (initialized : Bool) (root : Context) :
    WithContextOutcome (Option TraceCtx × Option TraceCtx) :=
  withContext initialized [("a", .vnum 1)]
    (fun c1 =>
      let inner := withContext initialized [("b", .vnum 2)]
        (fun c2 => .ok (getCurrentContext c2)) c1
      match inner.result with
      | .ok innerCtx => .ok (innerCtx, getCurrentContext c1)
      | .error e => .error e)
    root

theorem lookup_eq_none_iff {β : Type} (l : List (String × β)) (k : String) :
    l.lookup k = none ↔ k ∉ l.map Prod.fst := by
  induction l with
  | nil => simp [List.lookup]
  | cons hd tl ih =>
    by_cases h : k = hd.1
    · simp [List.lookup, h]
    · simp [List.lookup, show (k == hd.1) = false by simpa using h, ih, h]

theorem lookup_exists_of_mem_keys {β : Type} (l : List (String × β)) {k : String}
    (h : k ∈ l.map Prod.fst) : ∃ v, l.lookup k = some v := by
  cases hv : l.lookup k with
  | none => exact absurd h ((lookup_eq_none_iff l k).mp hv)
  | some v => exact ⟨v, rfl⟩

theorem lookup_spreadMerge_of_not_mem (parent : TraceCtx) {k : String}
    (child : TraceCtx) (h : k ∉ child.map Prod.fst) :
    (spreadMerge parent child).lookup k = parent.lookup k := by
  induction child generalizing parent with
  | nil => rfl
  | cons hd tl ih =>
    simp only [List.map_cons, List.mem_cons] at h
    push_neg at h
    have := ih (setEntry parent hd.1 hd.2) h.2
    simpa [spreadMerge, List.foldl_cons, lookup_setEntry_ne parent h.1 hd.2] using this

theorem lookup_spreadMerge_of_mem (parent : TraceCtx) {k : String}
    (child : TraceCtx) (hnd : (child.map Prod.fst).Nodup)
    (h : k ∈ child.map Prod.fst) :
    (spreadMerge parent child).lookup k = child.lookup k := by
  induction child generalizing parent with
  | nil => simp at h
  | cons hd tl ih =>
    simp only [List.map_cons, List.nodup_cons] at hnd
    rcases hd with ⟨k', v'⟩
    by_cases hk : k = k'
    · subst hk
      have hnot : k ∉ tl.map Prod.fst := hnd.1
      have : (spreadMerge (setEntry parent k v') tl).lookup k
          = (setEntry parent k v').lookup k :=
        lookup_spreadMerge_of_not_mem _ tl hnot
      simp [spreadMerge, List.foldl_cons, List.lookup] at this ⊢
      simpa [lookup_setEntry_self] using this
    · simp only [List.map_cons, List.mem_cons] at h
      rcases h with h | h
      · exact absurd h hk
      · have := ih (setEntry parent k' v') hnd.2 h
        simpa [spreadMerge, List.foldl_cons, List.lookup,
          show (k == k') = false by simpa using hk] using this

/-- C5: on the initialized client, `withContext` runs `fn` under the merge of
the enclosing context and the supplied metadata — supplied keys win on
conflict and parent-only keys stay visible — and the scope's context is
discarded when `fn` completes: nesting `{a:1}` then `{b:2}` shows
`getCurrentContext()` as `{a:1, b:2}` inside the inner scope, and as `{a:1}`
only after the inner scope exits. -/
theorem withContext_merge_and_scope (parent child : TraceCtx) (k : String)
    (hnd : (child.map Prod.fst).Nodup) :
    ((spreadMerge parent child).lookup k =
      match child.lookup k with
      | some v => some v
      | none => parent.lookup k) ∧
    (nestedRun true { agentbasisContext := none }).result
      = .ok (some [("a", .vnum 1), ("b", .vnum 2)], some [("a", .vnum 1)]) := by
  constructor
  · by_cases hmem : k ∈ child.map Prod.fst
    · rw [lookup_spreadMerge_of_mem parent child hnd hmem]
      rcases lookup_exists_of_mem_keys child hmem with ⟨v, hv⟩
      simp [hv]
    · rw [lookup_spreadMerge_of_not_mem parent child hmem]
      simp [(lookup_eq_none_iff child k).mpr hmem]
  · rfl

/-- Witness for C5 at concrete contexts (`{x:1, y:2}` merged under `{y:3}`). -/
theorem withContext_merge_and_scope_witness :
    ((spreadMerge [("x", JsVal.vnum 1), ("y", JsVal.vnum 2)] [("y", JsVal.vnum 3)]).lookup "y"
        = some (JsVal.vnum 3) ∧
      (spreadMerge [("x", JsVal.vnum 1), ("y", JsVal.vnum 2)]
        [("y", JsVal.vnum 3)]).lookup "x" = some (JsVal.vnum 1)) ∧
    (nestedRun true { agentbasisContext := none }).result
      = .ok (some [("a", JsVal.vnum 1), ("b", JsVal.vnum 2)],
             some [("a", JsVal.vnum 1)]) := by
  have hy := withContext_merge_and_scope [("x", JsVal.vnum 1), ("y", JsVal.vnum 2)]
    [("y", JsVal.vnum 3)] "y" (by simp)
  have hx := withContext_merge_and_scope [("x", JsVal.vnum 1), ("y", JsVal.vnum 2)]
    [("y", JsVal.vnum 3)] "x" (by simp)
  exact ⟨⟨by simpa using hy.1, by simpa using hx.1⟩, hy.2⟩

/-- C10: when the SDK is not initialized, `withContext` invokes `fn` directly
under the unchanged ambient context and returns its result — no scoping span
is created and the supplied metadata is not propagated; in particular, at the
root ambient context `getCurrentContext()` observed inside `fn` is `none`. -/
theorem withContext_uninitialized_passthrough {α : Type} (m : TraceCtx)
    (fn : Context → Except String α) (ctx : Context) :
    withContext false m fn ctx = { result := fn ctx, spans := [] } ∧
    (withContext false m (fun c => .ok (getCurrentContext c))
        { agentbasisContext := none }).result = .ok none := by
  exact ⟨rfl, rfl⟩

/-! ## Streaming aggregation: the OpenAI pull wrapper
(`wrapStreamingResponse`, `llms/openai/index.ts`) -/

/-- The `usage` object an OpenAI streaming chunk may carry. -/
structure OpenAIUsage where
  prompt_tokens : Option Int := none
  completion_tokens : Option Int := none
  total_tokens : Option Int := none
deriving DecidableEq, Repr

/-- The fields the wrapper reads off one OpenAI streaming chunk:
`chunk.choices[0].delta.content`, `chunk.choices[0].finish_reason`,
`chunk.usage`. -/
structure OpenAIChunk where
  deltaContent : Option String := none
  finishReason : Option String := none
  usage : Option OpenAIUsage := none
deriving DecidableEq, Repr

/-- One step of a pull-style stream: a yielded chunk, or an error thrown by
the source (no later item is ever observed by a `for await` consumer). -/
inductive StreamItem (χ : Type) where
  | chunk (c : χ)
  | errorThrown (msg : String)
deriving DecidableEq, Repr

/-- Accumulator state of the OpenAI wrapper's `for await` loop. -/
structure OpenAIStreamState where
  totalContent : String
  finishReason : Option String
  usage : Option OpenAIUsage
deriving DecidableEq, Repr

/-- Processing of one chunk by the loop body (JS truthiness guards:
an empty delta string or finish reason is falsy and ignored; a present
`usage` object always replaces the accumulator wholesale). -/
def openAIStep (st : OpenAIStreamState) (c : OpenAIChunk) : OpenAIStreamState :=
  let st := match c.deltaContent with
    | some t => if !t.isEmpty then { st with totalContent := st.totalContent ++ t } else st
    | none => st
  let st := match c.finishReason with
    | some r => if !r.isEmpty then { st with finishReason := some r } else st
    | none => st
  match c.usage with
  | some u => { st with usage := some u }
  | none => st

/-- JS `null` for the `finish_reason` field of the synthesized response. -/
def strOrNull : Option String → JsVal
  | some s => .vstr s
  | none => .vobj []

namespace Openai

/-- `wrapStreamingResponse` from `llms/openai/index.ts`, as the
`endLLMSpan` options it finalizes with: iterate the source, accumulating
content / finish reason / last usage object; on natural completion finalize
with the accumulated totals (`usage?.field` — unset when absent); on a
thrown error finalize immediately with the error, observing nothing that
follows. -/
def wrapStreamingResponse (prompt : JsVal) :
    List (StreamItem OpenAIChunk) → OpenAIStreamState → EndLLMSpanOptions JsVal
  | [], st =>
    { inputTokens := st.usage.bind (fun u => u.prompt_tokens)
      outputTokens := st.usage.bind (fun u => u.completion_tokens)
      totalTokens := st.usage.bind (fun u => u.total_tokens)
      prompt := some prompt
      response := some (.vobj [("content", .vstr st.totalContent),
                               ("finish_reason", strOrNull st.finishReason)])
      streamed := some true
      error := none }
  | .chunk c :: rest, st => wrapStreamingResponse prompt rest (openAIStep st c)
  | .errorThrown e :: _, _ =>
    { prompt := some prompt, streamed := some true, error := some e }

/-- The whole wrapped stream, from the initial accumulator state. -/
def runStream (prompt : JsVal) (items : List (StreamItem OpenAIChunk)) :
    EndLLMSpanOptions JsVal :=
  wrapStreamingResponse prompt items
    { totalContent := "", finishReason := none, usage := none }

end Openai

/-! ## Streaming aggregation: the Anthropic pull wrapper
(`wrapStreamingResponse`, Anthropic instrumentation module) -/

/-- The events the Anthropic wrapper inspects (`event.type` dispatch). -/
inductive AnthropicEvent where
  | contentBlockDelta (text : Option String)
  | messageDelta (stopReason : Option String) (outputTokens : Option Int)
  | messageStart (inputTokens : Option Int)
  | otherEvent
deriving DecidableEq, Repr

/-- Accumulator of the Anthropic wrapper: token counters start at `0`. -/
structure AnthropicStreamState where
  totalContent : String
  inputTokens : Int
  outputTokens : Int
  stopReason : Option String
deriving DecidableEq, Repr

/-- JS `x || old` for a possibly-absent number (`0` and `undefined` falsy). -/
def jsOrInt : Option Int → Int → Int
  | some n, old => if n != 0 then n else old
  | none, old => old

/-- JS `x || old` for a possibly-absent string (`""` and `undefined` falsy). -/
def jsOrStr : Option String → Option String → Option String
  | some s, old => if !s.isEmpty then some s else old
  | none, old => old

/-- Processing of one event by the Anthropic wrapper's loop body. -/
def anthropicStep (st : AnthropicStreamState) : AnthropicEvent → AnthropicStreamState
  | .contentBlockDelta t =>
    match t with
    | some s => if !s.isEmpty then { st with totalContent := st.totalContent ++ s } else st
    | none => st
  | .messageDelta sr ot =>
    { st with stopReason := jsOrStr sr st.stopReason
              outputTokens := jsOrInt ot st.outputTokens }
  | .messageStart it => { st with inputTokens := jsOrInt it st.inputTokens }
  | .otherEvent => st

namespace Anthropic

/-- `wrapStreamingResponse` from the Anthropic instrumentation module, as
the `endLLMSpan` options it finalizes with: on natural completion it always
passes all three token counts (the zero-initialized accumulators, so absent
usage is reported as `0`); on a thrown error it finalizes with the error. -/
def wrapStreamingResponse (prompt : JsVal) :
    List (StreamItem AnthropicEvent) → AnthropicStreamState → EndLLMSpanOptions JsVal
  | [], st =>
    { inputTokens := some st.inputTokens
      outputTokens := some st.outputTokens
      totalTokens := some (st.inputTokens + st.outputTokens)
      prompt := some prompt
      response := some (.vobj [("content", .vstr st.totalContent),
                               ("stop_reason", strOrNull st.stopReason)])
      streamed := some true
      error := none }
  | .chunk e :: rest, st => wrapStreamingResponse prompt rest (anthropicStep st e)
  | .errorThrown e :: _, _ =>
    { prompt := some prompt, streamed := some true, error := some e }

/-- The whole wrapped stream, from the initial accumulator state. -/
def runStream (prompt : JsVal) (items : List (StreamItem AnthropicEvent)) :
    EndLLMSpanOptions JsVal :=
  wrapStreamingResponse prompt items
    { totalContent := "", inputTokens := 0, outputTokens := 0, stopReason := none }

end Anthropic

theorem openAIStep_usage (st : OpenAIStreamState) (c : OpenAIChunk) :
    (openAIStep st c).usage =
      match c.usage with
      | some u => some u
      | none => st.usage := by
  rcases c with ⟨d, f, u⟩
  cases d <;> cases f <;> cases u <;>
    simp only [openAIStep] <;> split_ifs <;> rfl

theorem foldl_openAIStep_usage (chunks : List OpenAIChunk) (st : OpenAIStreamState) :
    (chunks.foldl openAIStep st).usage =
      match (chunks.filterMap OpenAIChunk.usage).getLast? with
      | some u => some u
      | none => st.usage := by
  induction chunks using List.reverseRecOn generalizing st with
  | nil => rfl
  | append_singleton ds c ih =>
    rw [List.foldl_append]
    cases hcu : c.usage with
    | some u =>
      simp [List.foldl, openAIStep_usage, hcu, List.filterMap_append,
        List.filterMap, List.getLast?_concat]
    | none =>
      simp only [List.foldl, openAIStep_usage, hcu]
      have hf : (ds ++ [c]).filterMap OpenAIChunk.usage = ds.filterMap OpenAIChunk.usage := by
        simp [List.filterMap_append, List.filterMap, hcu]
      rw [hf, ih]

theorem openai_wrap_chunks (prompt : JsVal) (chunks : List OpenAIChunk)
    (st : OpenAIStreamState) :
    Openai.wrapStreamingResponse prompt (chunks.map .chunk) st
      = Openai.wrapStreamingResponse prompt [] (chunks.foldl openAIStep st) := by
  induction chunks generalizing st with
  | nil => rfl
  | cons c rest ih => simpa [Openai.wrapStreamingResponse] using ih (openAIStep st c)

theorem openai_wrap_error (prompt : JsVal) (pre : List OpenAIChunk) (e : String)
    (suf : List (StreamItem OpenAIChunk)) (st : OpenAIStreamState) :
    Openai.wrapStreamingResponse prompt (pre.map .chunk ++ .errorThrown e :: suf) st
      = { prompt := some prompt, streamed := some true, error := some e } := by
  induction pre generalizing st with
  | nil => rfl
  | cons c rest ih => simpa [Openai.wrapStreamingResponse] using ih (openAIStep st c)

theorem anthropic_wrap_chunks (prompt : JsVal) (events : List AnthropicEvent)
    (st : AnthropicStreamState) :
    Anthropic.wrapStreamingResponse prompt (events.map .chunk) st
      = Anthropic.wrapStreamingResponse prompt [] (events.foldl anthropicStep st) := by
  induction events generalizing st with
  | nil => rfl
  | cons e rest ih => simpa [Anthropic.wrapStreamingResponse] using ih (anthropicStep st e)

/-- On a span handle whose end-guard is clear, `endLLMSpan` sets error status
with the supplied error, and ok status otherwise. -/
theorem endLLMSpan_status {α : Type} (config : AgentBasisConfig) (stringify : α → String)
    {s : Span} (h : s.ended = false) (o : EndLLMSpanOptions α) :
    (endLLMSpan config stringify s o).status =
      match o.error with
      | some e => SpanStatus.error e
      | none => SpanStatus.ok := by
  rcases o with ⟨i, ou, t, p, r, st, e⟩
  simp only [endLLMSpan]
  cases i <;> cases ou <;> cases t <;> cases st <;> cases e <;>
    cases hic : config.includeContent <;> cases p <;> cases r <;>
    simp_all [Span.setAttribute, Span.setStatus, Span.recordException, Span.endSpan]

/-- The input-token attribute of a finalized fresh LLM span equals exactly
the provided option: set when present, left unset when absent. -/
theorem endLLMSpan_inputTokens_attr {α : Type} (config : AgentBasisConfig)
    (stringify : α → String) (name provider model : String) (o : EndLLMSpanOptions α) :
    (endLLMSpan config stringify (startLLMSpan config name provider model) o).attrs.lookup
        LLM_ATTRIBUTES_INPUT_TOKENS = o.inputTokens.map AttrVal.num := by
  rcases o with ⟨i, ou, t, p, r, st, e⟩
  simp only [endLLMSpan, startLLMSpan]
  cases i <;> cases ou <;> cases t <;> cases st <;> cases e <;>
    cases hic : config.includeContent <;> cases p <;> cases r <;>
    simp +decide [Span.setAttribute, Span.setStatus, Span.recordException, Span.endSpan,
      setEntry, List.lookup, LLM_ATTRIBUTES_PROVIDER, LLM_ATTRIBUTES_MODEL,
      LLM_ATTRIBUTES_AGENT_ID, LLM_ATTRIBUTES_INPUT_TOKENS, LLM_ATTRIBUTES_OUTPUT_TOKENS,
      LLM_ATTRIBUTES_TOTAL_TOKENS, LLM_ATTRIBUTES_PROMPT, LLM_ATTRIBUTES_RESPONSE,
      LLM_ATTRIBUTES_STREAMED]

/-- C6 counterexample: a stream whose first chunk carries
`usage.prompt_tokens = 5` and whose second carries a usage object without a
prompt-token field finalizes with `inputTokens` absent, although the last
non-absent input-token value observed across all chunks is `5` — the wrapper
keeps the last usage object wholesale, not the per-field last non-absent
values. -/
theorem openai_stream_last_usage_counterexample :
    (Openai.runStream (.vstr "p")
        [.chunk { usage := some { prompt_tokens := some 5 } },
         .chunk { usage := some { completion_tokens := some 7 } }]).inputTokens = none ∧
    ([{ usage := some { prompt_tokens := some 5 } },
      ({ usage := some { completion_tokens := some 7 } } : OpenAIChunk)].filterMap
        (fun c => c.usage.bind (fun u => u.prompt_tokens))).getLast? = some 5 :=
  ⟨rfl, rfl⟩

/-- C6 (amended): for the OpenAI pull wrapper, a stream of chunks followed by
natural completion finalizes with token counts equal to the fields of the
last chunk that carried a usage object (each attribute set exactly when that
field is present there — absence is never coerced to zero); a thrown error
finalizes immediately with error status and nothing after the error
contributes.  The Anthropic pull wrapper, by contrast, always sets all three
token counts, so absent usage is reported as `0`. -/
theorem stream_aggregation_tokens (prompt : JsVal) (chunks pre : List OpenAIChunk)
    (e : String) (suf : List (StreamItem OpenAIChunk)) (config : AgentBasisConfig)
    (stringify : JsVal → String) (name provider model : String)
    (events : List AnthropicEvent) :
    ((Openai.runStream prompt (chunks.map .chunk)).inputTokens
        = ((chunks.filterMap OpenAIChunk.usage).getLast?).bind (fun u => u.prompt_tokens) ∧
      (Openai.runStream prompt (chunks.map .chunk)).outputTokens
        = ((chunks.filterMap OpenAIChunk.usage).getLast?).bind (fun u => u.completion_tokens) ∧
      (Openai.runStream prompt (chunks.map .chunk)).totalTokens
        = ((chunks.filterMap OpenAIChunk.usage).getLast?).bind (fun u => u.total_tokens) ∧
      (Openai.runStream prompt (chunks.map .chunk)).error = none) ∧
    ((endLLMSpan config stringify (startLLMSpan config name provider model)
        (Openai.runStream prompt (chunks.map .chunk))).attrs.lookup
          LLM_ATTRIBUTES_INPUT_TOKENS
        = (((chunks.filterMap OpenAIChunk.usage).getLast?).bind
            (fun u => u.prompt_tokens)).map AttrVal.num) ∧
    (Openai.runStream prompt (pre.map .chunk ++ .errorThrown e :: suf)
        = Openai.runStream prompt (pre.map .chunk ++ [.errorThrown e]) ∧
      (Openai.runStream prompt (pre.map .chunk ++ .errorThrown e :: suf)).error = some e ∧
      (endLLMSpan config stringify (startLLMSpan config name provider model)
        (Openai.runStream prompt (pre.map .chunk ++ .errorThrown e :: suf))).status
        = .error e) ∧
    ((Anthropic.runStream prompt (events.map .chunk)).inputTokens.isSome = true ∧
      (Anthropic.runStream prompt (events.map .chunk)).outputTokens.isSome = true ∧
      (Anthropic.runStream prompt (events.map .chunk)).totalTokens.isSome = true ∧
      (Anthropic.runStream prompt
        [.chunk (.contentBlockDelta (some "hi"))]).inputTokens = some 0 ∧
      (Anthropic.runStream prompt
        [.chunk (.contentBlockDelta (some "hi"))]).outputTokens = some 0 ∧
      (Anthropic.runStream prompt
        [.chunk (.contentBlockDelta (some "hi"))]).totalTokens = some 0) := by
  have husage : ((List.foldl openAIStep
      { totalContent := "", finishReason := none, usage := none } chunks)).usage
      = (chunks.filterMap OpenAIChunk.usage).getLast? := by
    rw [foldl_openAIStep_usage]
    cases (chunks.filterMap OpenAIChunk.usage).getLast? <;> rfl
  have hsucc : Openai.runStream prompt (chunks.map .chunk)
      = Openai.wrapStreamingResponse prompt []
        (List.foldl openAIStep
          { totalContent := "", finishReason := none, usage := none } chunks) := by
    simpa [Openai.runStream] using openai_wrap_chunks prompt chunks _
  have herr : Openai.runStream prompt (pre.map .chunk ++ .errorThrown e :: suf)
      = { prompt := some prompt, streamed := some true, error := some e } := by
    simpa [Openai.runStream] using openai_wrap_error prompt pre e suf _
  have herr' : Openai.runStream prompt (pre.map .chunk ++ [.errorThrown e])
      = { prompt := some prompt, streamed := some true, error := some e } := by
    simpa [Openai.runStream] using openai_wrap_error prompt pre e [] _
  refine ⟨⟨?_, ?_, ?_, ?_⟩, ?_, ⟨?_, ?_, ?_⟩, ?_, ?_, ?_, rfl, rfl, rfl⟩
  · rw [hsucc, Openai.wrapStreamingResponse, husage]
  · rw [hsucc, Openai.wrapStreamingResponse, husage]
  · rw [hsucc, Openai.wrapStreamingResponse, husage]
  · rw [hsucc, Openai.wrapStreamingResponse]
  · rw [endLLMSpan_inputTokens_attr, hsucc, Openai.wrapStreamingResponse, husage]
  · rw [herr, herr']
  · rw [herr]
  · rw [herr, endLLMSpan_status config stringify rfl]
  · rw [show Anthropic.runStream prompt (events.map .chunk)
        = Anthropic.wrapStreamingResponse prompt []
          (List.foldl anthropicStep
            { totalContent := "", inputTokens := 0, outputTokens := 0, stopReason := none }
            events) from by
      simpa [Anthropic.runStream] using anthropic_wrap_chunks prompt events _]
    rw [Anthropic.wrapStreamingResponse]
    rfl
  · rw [show Anthropic.runStream prompt (events.map .chunk)
        = Anthropic.wrapStreamingResponse prompt []
          (List.foldl anthropicStep
            { totalContent := "", inputTokens := 0, outputTokens := 0, stopReason := none }
            events) from by
      simpa [Anthropic.runStream] using anthropic_wrap_chunks prompt events _]
    rw [Anthropic.wrapStreamingResponse]
    rfl
  · rw [show Anthropic.runStream prompt (events.map .chunk)
        = Anthropic.wrapStreamingResponse prompt []
          (List.foldl anthropicStep
            { totalContent := "", inputTokens := 0, outputTokens := 0, stopReason := none }
            events) from by
      simpa [Anthropic.runStream] using anthropic_wrap_chunks prompt events _]
    rw [Anthropic.wrapStreamingResponse]
    rfl

/-! ## Finalize-guards of the push/deferred stream wrappers
(`wrapAnthropicStream` in the Anthropic module, `wrapGeminiStream` in
`llms/openai/index.ts`) -/

/-- The `usage` object on an Anthropic `message` event. -/
structure AnthropicUsage where
  input_tokens : Option Int := none
  output_tokens : Option Int := none
deriving DecidableEq, Repr

/-- Events the Anthropic `MessageStream` helper can emit to the handlers
`wrapAnthropicStream` registers (`message`, `end`, `error`). -/
inductive MessageStreamEvent where
  | message (payload : JsVal) (usage : Option AnthropicUsage)
  | endEvent
  | errorEvent (msg : String)

/-- The closure state of `wrapAnthropicStream`: the token accumulators, the
`ended` finalize-guard, and the `endLLMSpan` invocations performed so far. -/
structure MessageStreamHandlerState where
  inputTokens : Int
  outputTokens : Int
  ended : Bool
  calls : List (EndLLMSpanOptions JsVal)

/-- `endStreamSpan` from `wrapAnthropicStream`: the finalize-guard is checked
and set in one synchronous step (no suspension point between the check and
the assignment), so at most one `endLLMSpan` invocation ever happens. -/
def endStreamSpan (st : MessageStreamHandlerState) (opts : EndLLMSpanOptions JsVal) :
    MessageStreamHandlerState :=
  if st.ended then st
  else { st with ended := true, calls := st.calls ++ [opts] }

/-- One handler invocation of `wrapAnthropicStream`, per emitted event. -/
def anthropicStreamHandle (prompt : JsVal) (st : MessageStreamHandlerState) :
    MessageStreamEvent → MessageStreamHandlerState
  | .message payload usage =>
    let st := match usage with
      | some u =>
        { st with inputTokens := jsOrInt u.input_tokens st.inputTokens
                  outputTokens := jsOrInt u.output_tokens st.outputTokens }
      | none => st
    endStreamSpan st
      { inputTokens := some st.inputTokens
        outputTokens := some st.outputTokens
        totalTokens := some (st.inputTokens + st.outputTokens)
        prompt := some prompt
        response := some payload
        streamed := some true }
  | .endEvent =>
    endStreamSpan st
      { inputTokens := some st.inputTokens
        outputTokens := some st.outputTokens
        totalTokens := some (st.inputTokens + st.outputTokens)
        prompt := some prompt
        streamed := some true }
  | .errorEvent e =>
    endStreamSpan st { prompt := some prompt, streamed := some true, error := some e }

/-- `wrapAnthropicStream`: the handlers over the full emitted event sequence. -/
def wrapAnthropicStream (prompt : JsVal) (events : List MessageStreamEvent) :
    MessageStreamHandlerState :=
  events.foldl (anthropicStreamHandle prompt)
    { inputTokens := 0, outputTokens := 0, ended := false, calls := [] }

/-- The usage metadata resolved by a Gemini deferred response. -/
structure GeminiUsage where
  promptTokenCount : Option Int := none
  candidatesTokenCount : Option Int := none
  totalTokenCount : Option Int := none
deriving DecidableEq, Repr

/-- How the Gemini deferred `response` promise can behave: resolve with a
response (carrying optional usage metadata), reject, or never settle. -/
inductive GeminiPromiseOutcome where
  | resolves (response : JsVal) (usage : Option GeminiUsage)
  | rejects (msg : String)
  | pending

def GeminiPromiseOutcome.settled : GeminiPromiseOutcome → Bool
  | .pending => false
  | _ => true

/-- The observable behaviour of `wrapGeminiStream`: the `endLLMSpan`
invocations made by the wrapped-stream generator and by the deferred
response promise's handlers, plus the accumulated text (which the source
accumulates but never uses). -/
structure GeminiWrapResult where
  streamCalls : List (EndLLMSpanOptions JsVal)
  promiseCalls : List (EndLLMSpanOptions JsVal)
  totalText : String

/-- All `endLLMSpan` invocations for one wrapped Gemini streaming operation. -/
def GeminiWrapResult.calls (r : GeminiWrapResult) : List (EndLLMSpanOptions JsVal) :=
  r.streamCalls ++ r.promiseCalls

/-- `wrapGeminiStream` from `llms/openai/index.ts`: the generator yields the
chunks, accumulating their text, and calls `endLLMSpan` only when the stream
throws (nothing on natural completion); independently, the deferred response
promise's `then` handler calls `endLLMSpan` with the final usage and its
`catch` handler calls `endLLMSpan` with the error.  There is no shared
finalize-guard between the two channels. -/
def wrapGeminiStream (prompt : JsVal) (chunkTexts : List (Option String))
    (streamError : Option String) (response : GeminiPromiseOutcome) : GeminiWrapResult :=
  let totalText := chunkTexts.foldl
    (fun acc t => match t with
      | some s => if !s.isEmpty then acc ++ s else acc
      | none => acc) ""
  let streamCalls : List (EndLLMSpanOptions JsVal) :=
    match streamError with
    | some e => [{ prompt := some prompt, streamed := some true, error := some e }]
    | none => []
  let promiseCalls : List (EndLLMSpanOptions JsVal) :=
    match response with
    | .resolves resp usage =>
      [{ inputTokens := usage.bind (fun u => u.promptTokenCount)
         outputTokens := usage.bind (fun u => u.candidatesTokenCount)
         totalTokens := usage.bind (fun u => u.totalTokenCount)
         prompt := some prompt
         response := some resp
         streamed := some true }]
    | .rejects e => [{ prompt := some prompt, streamed := some true, error := some e }]
    | .pending => []
  { streamCalls := streamCalls, promiseCalls := promiseCalls, totalText := totalText }

theorem anthropicStreamHandle_ended (prompt : JsVal) (st : MessageStreamHandlerState)
    (ev : MessageStreamEvent) :
    (anthropicStreamHandle prompt st ev).ended = true := by
  cases ev with
  | message payload usage =>
    cases usage <;> simp [anthropicStreamHandle, endStreamSpan] <;> split <;> simp_all
  | endEvent => simp [anthropicStreamHandle, endStreamSpan]; split <;> simp_all
  | errorEvent e => simp [anthropicStreamHandle, endStreamSpan]; split <;> simp_all

theorem anthropicStreamHandle_calls (prompt : JsVal) (st : MessageStreamHandlerState)
    (ev : MessageStreamEvent) :
    (anthropicStreamHandle prompt st ev).calls.length
      = if st.ended then st.calls.length else st.calls.length + 1 := by
  cases ev with
  | message payload usage =>
    cases usage <;> simp [anthropicStreamHandle, endStreamSpan] <;> split <;> simp_all
  | endEvent => simp [anthropicStreamHandle, endStreamSpan]; split <;> simp_all
  | errorEvent e => simp [anthropicStreamHandle, endStreamSpan]; split <;> simp_all

theorem anthropic_foldl_calls (prompt : JsVal) (events : List MessageStreamEvent)
    (st : MessageStreamHandlerState) (h : st.ended = true) :
    (events.foldl (anthropicStreamHandle prompt) st).calls.length = st.calls.length := by
  induction events generalizing st with
  | nil => rfl
  | cons ev rest ih =>
    rw [List.foldl_cons]
    have hlen := anthropicStreamHandle_calls prompt st ev
    rw [h] at hlen
    simp only [if_true] at hlen
    rw [ih _ (anthropicStreamHandle_ended prompt st ev), hlen]

/-- C1 counterexample: a Gemini streaming operation whose source stream
throws and whose deferred response promise also rejects invokes `endLLMSpan`
twice — `wrapGeminiStream` has no finalize-guard of its own, so the
exactly-once claim fails for it (only the span's own end-guard then limits
the damage to one export). -/
theorem gemini_double_finalize_counterexample :
    (wrapGeminiStream (.vstr "p") [] (some "boom") (.rejects "boom")).calls.length = 2 :=
  rfl

/-- C1 (amended): the Anthropic `MessageStream` wrapper finalizes exactly
once — its `ended` guard is checked and set in one synchronous, indivisible
step, so whatever event sequence (message / end / error, in any order and
multiplicity) the stream fires, `endLLMSpan` is invoked exactly once as soon
as any completion event arrives, and never twice.  The Gemini stream wrapper
has no such guard: each of its two independent channels (stream error;
deferred response settlement) invokes `endLLMSpan` at most once, so one
operation can see up to two invocations when both channels fire, and zero
when the stream ends naturally with the response promise never settling. -/
theorem stream_finalize_guard (prompt : JsVal) (events : List MessageStreamEvent)
    (chunkTexts : List (Option String)) (streamError : Option String)
    (response : GeminiPromiseOutcome) (hne : events ≠ []) :
    (wrapAnthropicStream prompt events).calls.length = 1 ∧
    (∀ evs : List MessageStreamEvent, (wrapAnthropicStream prompt evs).calls.length ≤ 1) ∧
    (wrapGeminiStream prompt chunkTexts streamError response).calls.length
      = (if streamError.isSome then 1 else 0) + (if response.settled then 1 else 0) := by
  refine ⟨?_, ?_, ?_⟩
  · rcases events with _ | ⟨ev, rest⟩
    · exact absurd rfl hne
    · rw [wrapAnthropicStream, List.foldl_cons,
        anthropic_foldl_calls prompt rest _ (anthropicStreamHandle_ended prompt _ ev),
        anthropicStreamHandle_calls]
      rfl
  · intro evs
    rcases evs with _ | ⟨ev, rest⟩
    · simp [wrapAnthropicStream]
    · rw [wrapAnthropicStream, List.foldl_cons,
        anthropic_foldl_calls prompt rest _ (anthropicStreamHandle_ended prompt _ ev),
        anthropicStreamHandle_calls]
      simp
  · cases streamError <;> cases response <;>
      simp [wrapGeminiStream, GeminiWrapResult.calls, GeminiPromiseOutcome.settled]

/-- Witness for C1 (amended) at a concrete event sequence (a message event
followed by a redundant end event still yields exactly one finalize). -/
theorem stream_finalize_guard_witness :
    ([MessageStreamEvent.message (.vstr "m")
        (some { input_tokens := some 3, output_tokens := some 5 }),
      MessageStreamEvent.endEvent] ≠ ([] : List MessageStreamEvent)) ∧
    (wrapAnthropicStream (.vstr "p")
      [MessageStreamEvent.message (.vstr "m")
        (some { input_tokens := some 3, output_tokens := some 5 }),
       MessageStreamEvent.endEvent]).calls.length = 1 ∧
    (wrapGeminiStream (.vstr "p") [some "hello"] none
        (.resolves (.vstr "resp") (some { promptTokenCount := some 3 }))).calls.length
      = (if (none : Option String).isSome then 1 else 0)
        + (if (GeminiPromiseOutcome.resolves (.vstr "resp")
            (some { promptTokenCount := some 3 })).settled then 1 else 0) := by
  have h := stream_finalize_guard (.vstr "p")
    [MessageStreamEvent.message (.vstr "m")
      (some { input_tokens := some 3, output_tokens := some 5 }),
     MessageStreamEvent.endEvent]
    [some "hello"] none
    (.resolves (.vstr "resp") (some { promptTokenCount := some 3 }))
    (by simp)
  exact ⟨by simp, h.1, h.2.2⟩

/-! ## Provider instrumentation guards
(`instrument()` in the OpenAI, Anthropic and Gemini modules) -/

/-- The state an `instrument()` call reads: the module-local
`isInstrumented` flag and `AgentBasis.isInitialized()`. -/
structure ProviderModuleState where
  isInstrumented : Bool
  sdkInitialized : Bool
deriving DecidableEq, Repr

/-- The observable outcome of one `instrument()` call. -/
inductive InstrumentOutcome where
  | warnedAlreadyInstrumented
  | threwNotInitialized
  | instrumented
  | threwPackageLoadFailed
deriving DecidableEq, Repr

/-- The body shared verbatim by all three provider modules' `instrument()`:
if already instrumented, warn and return; if the SDK is not initialized,
throw; otherwise load the provider package (throwing if that fails) and
patch it.  `packageLoads` stands for whether `require(<provider>)`
succeeds. -/
def instrumentStep (packageLoads : Bool) (s : ProviderModuleState) :
    InstrumentOutcome × ProviderModuleState :=
  if s.isInstrumented then (.warnedAlreadyInstrumented, s)
  else if !s.sdkInitialized then (.threwNotInitialized, s)
  else if packageLoads then (.instrumented, { s with isInstrumented := true })
  else (.threwPackageLoadFailed, s)

/-- `instrument` of `llms/openai/index.ts`. -/
def Openai.instrument : Bool → ProviderModuleState →
    InstrumentOutcome × ProviderModuleState :=
  instrumentStep

/-- `instrument` of the Anthropic instrumentation module. -/
def Anthropic.instrument : Bool → ProviderModuleState →
    InstrumentOutcome × ProviderModuleState :=
  instrumentStep

/-- `instrument` of the Gemini instrumentation module
(`llms/openai/index.ts`, second unit). -/
def Gemini.instrument : Bool → ProviderModuleState →
    InstrumentOutcome × ProviderModuleState :=
  instrumentStep

/-- C9 counterexample: `instrument()` while the SDK is not initialized is NOT
always a throw.  Reachable trace: `init()` (SDK initialized), `instrument()`
(patches, sets the module flag), `shutdown()` (clears the SDK singleton but
not the module flag), `instrument()` again — the second call hits the
already-instrumented branch first and is a logged no-op, although the SDK is
not initialized. -/
theorem instrument_not_initialized_counterexample :
    (Openai.instrument true
        { isInstrumented := false, sdkInitialized := true }).1
      = .instrumented ∧
    ((Openai.instrument true
        { isInstrumented := false, sdkInitialized := true }).2.isInstrumented = true) ∧
    (Openai.instrument true
        { isInstrumented :=
            (Openai.instrument true
              { isInstrumented := false, sdkInitialized := true }).2.isInstrumented
          sdkInitialized := false }).1
      = .warnedAlreadyInstrumented ∧
    InstrumentOutcome.warnedAlreadyInstrumented ≠ InstrumentOutcome.threwNotInitialized :=
  ⟨rfl, rfl, rfl, by decide⟩

/-- C9 (amended): for each provider module whose `isInstrumented` flag is
clear, calling `instrument()` while the SDK is not initialized throws an
Error (and changes nothing) rather than being a logged no-op; a module whose
flag is still set from an earlier instrumentation instead warns and returns
even when the SDK is no longer initialized. -/
theorem instrument_uninitialized_throws (packageLoads : Bool)
    (s : ProviderModuleState) (h1 : s.isInstrumented = false)
    (h2 : s.sdkInitialized = false) :
    Openai.instrument packageLoads s = (.threwNotInitialized, s) ∧
    Anthropic.instrument packageLoads s = (.threwNotInitialized, s) ∧
    Gemini.instrument packageLoads s = (.threwNotInitialized, s) ∧
    (∀ t : ProviderModuleState, t.isInstrumented = true →
      Openai.instrument packageLoads t = (.warnedAlreadyInstrumented, t)) := by
  refine ⟨?_, ?_, ?_, ?_⟩
  · simp [Openai.instrument, instrumentStep, h1, h2]
  · simp [Anthropic.instrument, instrumentStep, h1, h2]
  · simp [Gemini.instrument, instrumentStep, h1, h2]
  · intro t ht
    simp [Openai.instrument, instrumentStep, ht]

/-- Witness for C9 (amended) at the fresh uninstrumented, uninitialized state. -/
theorem instrument_uninitialized_throws_witness :
    Openai.instrument true { isInstrumented := false, sdkInitialized := false }
      = (.threwNotInitialized, { isInstrumented := false, sdkInitialized := false }) ∧
    Anthropic.instrument true { isInstrumented := false, sdkInitialized := false }
      = (.threwNotInitialized, { isInstrumented := false, sdkInitialized := false }) ∧
    Gemini.instrument true { isInstrumented := false, sdkInitialized := false }
      = (.threwNotInitialized, { isInstrumented := false, sdkInitialized := false }) := by
  have h := instrument_uninitialized_throws true
    { isInstrumented := false, sdkInitialized := false } rfl rfl
  exact ⟨h.1, h.2.1, h.2.2.1⟩

/-! ## Concurrent shutdown (`AgentBasis.shutdown`, `core/client.ts`)

The JS runtime is single-threaded and cooperative: each `shutdown()` call
runs synchronously from its entry until its first `await`, and the teardown
body runs synchronously from the resolution of `transport.shutdown()` to
the end.  These maximal synchronous segments are the atomic events below;
callers are interchangeable, so the state keeps one counter per caller
phase.  Any interleaving is a list of events, invalid events being disabled
(`none`). -/

/-- The static state of `AgentBasis` during a shutdown episode, begun with
the singleton present, plus the phase counters of the shutdown callers. -/
structure ShutdownState where
  instActive : Bool
  promiseActive : Bool
  promiseResolved : Bool
  teardownStarts : Nat
  teardownDone : Nat
  idleCallers : Nat
  waitingJoiners : Nat
  waitingCreators : Nat
  doneJoiners : Nat
  doneCreators : Nat
  doneNoInstance : Nat
deriving DecidableEq, Repr

/-- The atomic events of a shutdown episode:
  - `enter`: a caller runs `shutdown()`'s synchronous prefix — it either
    joins the memoized in-flight promise, returns at once because no
    instance exists, or becomes the creator: it starts the teardown body
    (which runs synchronously up to `await transport.shutdown()`), stores
    the memoized promise and awaits it;
  - `finishTeardown`: `transport.shutdown()` resolves and the rest of the
    teardown body runs — the singleton is cleared, the debug override is
    reset, the memoized promise resolves;
  - `wakeCreator` / `wakeJoiner`: a caller's `await` of the resolved promise
    resumes; the creator's `finally` clears the memoized promise field. -/
inductive ShutdownEvent where
  | enter
  | finishTeardown
  | wakeCreator
  | wakeJoiner
deriving DecidableEq, Repr

/-- `AgentBasis.shutdown` from `core/client.ts` as a small-step transition:
`none` when the event is not enabled in `s`. -/
def shutdownStep (s : ShutdownState) : ShutdownEvent → Option ShutdownState
  | .enter =>
    if s.idleCallers = 0 then none
    else if s.promiseActive then
      some { s with idleCallers := s.idleCallers - 1
                    waitingJoiners := s.waitingJoiners + 1 }
    else if !s.instActive then
      some { s with idleCallers := s.idleCallers - 1
                    doneNoInstance := s.doneNoInstance + 1 }
    else
      some { s with idleCallers := s.idleCallers - 1
                    waitingCreators := s.waitingCreators + 1
                    promiseActive := true
                    teardownStarts := s.teardownStarts + 1 }
  | .finishTeardown =>
    if s.teardownDone < s.teardownStarts then
      some { s with teardownDone := s.teardownDone + 1
                    instActive := false
                    promiseResolved := true }
    else none
  | .wakeCreator =>
    if s.waitingCreators ≠ 0 ∧ s.promiseResolved = true then
      some { s with waitingCreators := s.waitingCreators - 1
                    doneCreators := s.doneCreators + 1
                    promiseActive := false }
    else none
  | .wakeJoiner =>
    if s.waitingJoiners ≠ 0 ∧ s.promiseResolved = true then
      some { s with waitingJoiners := s.waitingJoiners - 1
                    doneJoiners := s.doneJoiners + 1 }
    else none

/-- Run an arbitrary event list; disabled events change nothing. -/
def shutdownRun (s : ShutdownState) : List ShutdownEvent → ShutdownState
  | [] => s
  | e :: es =>
    match shutdownStep s e with
    | some s' => shutdownRun s' es
    | none => shutdownRun s es

/-- The initial state of an episode: the client is initialized, no teardown
is in flight, and `k` concurrent callers are about to invoke `shutdown()`. -/
def shutdownInit (k : Nat) : ShutdownState :=
  { instActive := true, promiseActive := false, promiseResolved := false
    teardownStarts := 0, teardownDone := 0
    idleCallers := k, waitingJoiners := 0, waitingCreators := 0
    doneJoiners := 0, doneCreators := 0, doneNoInstance := 0 }

/-- The number of callers whose `shutdown()` promise has resolved. -/
def ShutdownState.doneCallers (s : ShutdownState) : Nat :=
  s.doneJoiners + s.doneCreators + s.doneNoInstance

/-- The inductive invariant of the shutdown machine. -/
def ShutdownInv (s : ShutdownState) : Prop :=
  s.teardownDone ≤ s.teardownStarts ∧
  s.teardownStarts ≤ 1 ∧
  (s.instActive = true ↔ s.teardownDone = 0) ∧
  (s.promiseResolved = true ↔ s.teardownDone = 1) ∧
  s.waitingCreators + s.doneCreators = s.teardownStarts ∧
  (s.promiseActive = true ↔ s.waitingCreators = 1) ∧
  (0 < s.doneCallers → s.teardownDone = 1)

theorem shutdownInv_init (k : Nat) : ShutdownInv (shutdownInit k) := by
  refine ⟨?_, ?_, ?_, ?_, ?_, ?_, ?_⟩ <;>
    simp [shutdownInit, ShutdownState.doneCallers]

theorem shutdownStep_preserves {s s' : ShutdownState} (hinv : ShutdownInv s)
    (e : ShutdownEvent) (h : shutdownStep s e = some s') : ShutdownInv s' := by
  obtain ⟨hA, hB, hC, hD, hE, hF, hG⟩ := hinv
  cases e with
  | enter =>
    simp only [shutdownStep] at h
    split_ifs at h with h0 h1 h2
    · cases h
      simp only [ShutdownInv, ShutdownState.doneCallers] at hG ⊢
      exact ⟨hA, hB, hC, hD, hE, hF, hG⟩
    · cases h
      have hinst : s.instActive = false := by simpa using h2
      have hdone : s.teardownDone = 1 := by
        have hne : s.teardownDone ≠ 0 := fun hz => by simp [hC.mpr hz] at hinst
        omega
      simp only [ShutdownInv, ShutdownState.doneCallers] at hG ⊢
      exact ⟨hA, hB, hC, hD, hE, hF, fun _ => hdone⟩
    · cases h
      have hinst : s.instActive = true := by simpa using h2
      have hdz : s.teardownDone = 0 := hC.mp hinst
      have hpa : s.promiseActive = false := by simpa using h1
      have hwc0 : s.waitingCreators ≠ 1 := fun h1' => by simp [hF.mpr h1'] at hpa
      have hdc0 : s.doneCreators = 0 := by
        by_contra hdc
        have h01 : 0 < s.doneCallers := by
          simp only [ShutdownState.doneCallers]
          omega
        have := hG h01
        omega
      have hstarts0 : s.teardownStarts = 0 := by omega
      have hwcz : s.waitingCreators = 0 := by omega
      simp only [ShutdownInv, ShutdownState.doneCallers] at hG ⊢
      refine ⟨by omega, by omega, hC, hD, by omega, by simp [hwcz], fun hd => hG hd⟩
  | finishTeardown =>
    simp only [shutdownStep] at h
    split_ifs at h with h0
    · cases h
      have hdz : s.teardownDone = 0 := by omega
      have hs1 : s.teardownStarts = 1 := by omega
      simp only [ShutdownInv, ShutdownState.doneCallers] at hG ⊢
      refine ⟨by omega, hB, by simp, by simp [hdz], hE, hF, fun _ => by omega⟩
  | wakeCreator =>
    simp only [shutdownStep] at h
    split_ifs at h with h0
    · cases h
      have hd1 : s.teardownDone = 1 := hD.mp h0.2
      have hwc1 : s.waitingCreators = 1 := by omega
      simp only [ShutdownInv, ShutdownState.doneCallers] at hG ⊢
      refine ⟨hA, hB, hC, hD, by omega, by simp [hwc1], fun _ => hd1⟩
  | wakeJoiner =>
    simp only [shutdownStep] at h
    split_ifs at h with h0
    · cases h
      have hd1 : s.teardownDone = 1 := hD.mp h0.2
      simp only [ShutdownInv, ShutdownState.doneCallers] at hG ⊢
      exact ⟨hA, hB, hC, hD, hE, hF, fun _ => hd1⟩

theorem shutdownRun_inv {s : ShutdownState} (hinv : ShutdownInv s)
    (events : List ShutdownEvent) : ShutdownInv (shutdownRun s events) := by
  induction events generalizing s with
  | nil => exact hinv
  | cons e es ih =>
    rw [shutdownRun]
    cases hstep : shutdownStep s e with
    | some s' => exact ih (shutdownStep_preserves hinv e hstep)
    | none => exact ih hinv

/-- The total number of callers (in whatever phase) is an invariant. -/
def ShutdownState.totalCallers (s : ShutdownState) : Nat :=
  s.idleCallers + s.waitingJoiners + s.waitingCreators + s.doneCallers

theorem shutdownStep_totalCallers {s s' : ShutdownState} (e : ShutdownEvent)
    (h : shutdownStep s e = some s') : s'.totalCallers = s.totalCallers := by
  cases e with
  | enter =>
    simp only [shutdownStep] at h
    split_ifs at h with h0 h1 h2 <;> cases h <;>
      simp only [ShutdownState.totalCallers, ShutdownState.doneCallers] <;> omega
  | finishTeardown =>
    simp only [shutdownStep] at h
    split_ifs at h with h0
    cases h
    simp [ShutdownState.totalCallers, ShutdownState.doneCallers]
  | wakeCreator =>
    simp only [shutdownStep] at h
    split_ifs at h with h0
    cases h
    simp only [ShutdownState.totalCallers, ShutdownState.doneCallers]
    omega
  | wakeJoiner =>
    simp only [shutdownStep] at h
    split_ifs at h with h0
    cases h
    simp only [ShutdownState.totalCallers, ShutdownState.doneCallers]
    omega

theorem shutdownRun_totalCallers (s : ShutdownState) (events : List ShutdownEvent) :
    (shutdownRun s events).totalCallers = s.totalCallers := by
  induction events generalizing s with
  | nil => rfl
  | cons e es ih =>
    rw [shutdownRun]
    cases hstep : shutdownStep s e with
    | some s' => rw [ih s', shutdownStep_totalCallers e hstep]
    | none => exact ih s

/-- C3: for `k` concurrent `shutdown()` calls on an initialized client, under
every interleaving of the runtime's atomic segments: at most one teardown
ever starts; any caller whose promise has resolved implies the single
teardown has already completed (callers observe completion only after it);
once every caller has completed, the memoized teardown promise has been
cleared and the singleton is gone; and a subsequent `init()` on the cleared
state succeeds, constructing a fresh instance from its own resolved
configuration. -/
theorem shutdown_concurrent_exactly_once (k : Nat) (events : List ShutdownEvent)
    (n : Nat) (c : InitConfig) (env : EnvVars) (rc : AgentBasisConfig)
    (hk : 0 < k) (hc : loadConfig c env = .ok rc) :
    (shutdownRun (shutdownInit k) events).teardownStarts ≤ 1 ∧
    (0 < (shutdownRun (shutdownInit k) events).doneCallers →
      (shutdownRun (shutdownInit k) events).teardownDone = 1 ∧
      (shutdownRun (shutdownInit k) events).teardownStarts = 1) ∧
    ((shutdownRun (shutdownInit k) events).idleCallers = 0 →
      (shutdownRun (shutdownInit k) events).waitingJoiners = 0 →
      (shutdownRun (shutdownInit k) events).waitingCreators = 0 →
      (shutdownRun (shutdownInit k) events).promiseActive = false ∧
      (shutdownRun (shutdownInit k) events).instActive = false ∧
      (shutdownRun (shutdownInit k) events).teardownDone = 1 ∧
      (shutdownRun (shutdownInit k) events).teardownStarts = 1) ∧
    ((init { inst := none, nextId := n } c env).result = .ok { id := n, config := rc } ∧
      (init { inst := none, nextId := n } c env).state.inst
        = some { id := n, config := rc }) := by
  obtain ⟨hA, hB, hC, hD, hE, hF, hG⟩ := shutdownRun_inv (shutdownInv_init k) events
  have htot : (shutdownRun (shutdownInit k) events).totalCallers = k := by
    rw [shutdownRun_totalCallers]
    simp [shutdownInit, ShutdownState.totalCallers, ShutdownState.doneCallers]
  refine ⟨hB, fun hd => ⟨hG hd, by have := hG hd; omega⟩, ?_, ?_⟩
  · intro hidle hwj hwc
    have hdone : 0 < (shutdownRun (shutdownInit k) events).doneCallers := by
      simp only [ShutdownState.totalCallers] at htot
      omega
    have hd1 := hG hdone
    refine ⟨?_, ?_, hd1, by omega⟩
    · cases hval : (shutdownRun (shutdownInit k) events).promiseActive
      · rfl
      · exact absurd (hF.mp hval) (by omega)
    · cases hval : (shutdownRun (shutdownInit k) events).instActive
      · rfl
      · exact absurd (hC.mp hval) (by omega)
  · constructor
    · simp [init, hc]
    · simp [init, hc]

/-- Witness for C3: two concurrent callers, a full interleaving (the second
caller joins the first's memoized teardown), and a subsequent fresh init. -/
theorem shutdown_concurrent_exactly_once_witness :
    (shutdownRun (shutdownInit 2)
        [.enter, .enter, .finishTeardown, .wakeJoiner, .wakeCreator]).teardownStarts ≤ 1 ∧
    (0 < (shutdownRun (shutdownInit 2)
        [.enter, .enter, .finishTeardown, .wakeJoiner, .wakeCreator]).doneCallers →
      (shutdownRun (shutdownInit 2)
        [.enter, .enter, .finishTeardown, .wakeJoiner, .wakeCreator]).teardownDone = 1 ∧
      (shutdownRun (shutdownInit 2)
        [.enter, .enter, .finishTeardown, .wakeJoiner, .wakeCreator]).teardownStarts = 1) ∧
    (shutdownRun (shutdownInit 2)
        [.enter, .enter, .finishTeardown, .wakeJoiner, .wakeCreator]).doneCallers = 2 ∧
    (init { inst := none, nextId := 0 } { apiKey := some "k", agentId := some "a" } {}).result
      = .ok { id := 0, config := sampleResolvedConfig } := by
  have h := shutdown_concurrent_exactly_once 2
    [.enter, .enter, .finishTeardown, .wakeJoiner, .wakeCreator] 0
    { apiKey := some "k", agentId := some "a" } {} sampleResolvedConfig
    (by decide) rfl
  exact ⟨h.1, h.2.1, rfl, h.2.2.2.1⟩

end AgentBasis
